import Mathlib

/-!
Shallow embedding of `src/DgraphTransaction.js` (the `DgraphTransaction`
class of feelinglovelynow/dgraph) together with `src/enumContentType.js`.

Modelling conventions:
* JS numbers that only ever hold server timestamps are `Nat`; the
  constructor's `timeout` is `Int` (the code compares it with `> 0`).
* Optional JS strings that are only used through truthiness tests
  (`mutation`, `remove`) are plain `String`s with `""` playing the role of
  a missing value — in the source every use of these values is a
  truthiness test or an interpolation reached only when truthy, so the
  two encodings agree.
* `URLSearchParams` is modelled as an association list serialized with
  `&` / `=`; every call site inserts pairwise-distinct keys, so `set` is
  an append, and none of the values used by the program require
  percent-encoding.
* `JSON.stringify` (declared an external collaborator by the repository)
  is modelled for arrays of strings that need no JSON escaping.
* The network is an oracle `net : Nat → FetchResult`; index `i` is the
  next unread response.  Each operation returns the new transaction
  state, the value returned or error thrown, the list of HTTP requests
  issued (in order), and the next oracle index.
-/

namespace Dgraph

/-- Constant `enumContentType.dql` from enumContentType.js. -/
def enumContentType.dql : String := "application/dql"

/-- Constant `enumContentType.rdf` from enumContentType.js. -/
def enumContentType.rdf : String := "application/rdf"

/-- Constant `enumContentType.json` from enumContentType.js. -/
def enumContentType.json : String := "application/json"

/-- The `extensions.txn` object of a parsed dgraph response
(`DgraphExtensionsTxn` in typedefs.js).  `keys`/`preds` are `Option`
because the server may omit them; a present empty array is `some []`
(JS arrays are truthy even when empty). -/
structure ExtensionsTxn where
  start_ts : Nat
  hash : String
  keys : Option (List String)
  preds : Option (List String)
deriving Repr, DecidableEq

/-- Parsed JSON body of a response; only `extensions.txn` matters to the
transaction logic (`r?.extensions?.txn`). -/
structure RespBody where
  txn : Option ExtensionsTxn
deriving Repr, DecidableEq

/-- Result of one `fetch`: the HTTP status code and the parsed body. -/
structure FetchResult where
  status : Nat
  body : RespBody
deriving Repr, DecidableEq

/-- One outbound HTTP request issued by `#api`: the path after
`<endpoint>/`, the optional body and the optional `Content-Type` header.
Every request additionally carries `method: POST` and the
`X-Auth-Token: <apiKey>` header, which never vary. -/
structure Request where
  path : String
  body : Option String
  contentType : Option String
deriving Repr, DecidableEq

/-- The thrown error objects of DgraphTransaction.js, identified by their
`id` field; `startTsMismatch` carries `_errorData.transactionStartTs` and
`_errorData.responseStartTs`, `fetchFailure` is the raw `rFetch` response
thrown by `#api`. -/
inductive Err where
  | alreadyAborted
  | alreadyCommited
  | alreadyClosed
  | emptyMutate
  | fullMutate
  | readonlyMutation
  | startTsMismatch (transactionStartTs responseStartTs : Nat)
  | fetchFailure (r : FetchResult)
deriving Repr, DecidableEq

/-- The private fields of a `DgraphTransaction` instance. -/
structure Txn where
  keys : List String
  preds : List String
  hash : String
  apiKey : String
  endpoint : String
  startTs : Nat
  timeout : Int
  readOnly : Bool
  bestEffort : Bool
  isClosed : Bool
  isCommited : Bool
  isAborted : Bool
  didMutations : Bool
deriving Repr, DecidableEq

/-- The constructor (validation aside): field initializers plus
`if (readOnly) ... if (bestEffort) ... if (timeout) this.#timeout = timeout`
(`timeout = 0` is falsy, so the default 600 is kept). -/
def mkTxn (apiKey endpoint : String) (readOnly bestEffort : Bool) (timeout : Int) : Txn :=
  { keys := [], preds := [], hash := "", apiKey := apiKey, endpoint := endpoint,
    startTs := 0,
    timeout := if timeout ≠ 0 then timeout else 600,
    readOnly := readOnly, bestEffort := bestEffort,
    isClosed := false, isCommited := false, isAborted := false, didMutations := false }

deriving instance DecidableEq for Except

/-- Result of running one public method: final state, returned value or
thrown error, the issued requests in order, and the next oracle index. -/
structure StepResult where
  txn : Txn
  result : Except Err (Option RespBody)
  requests : List Request
  next : Nat
deriving Repr, DecidableEq

/-- Models `URLSearchParams.toString()` for pairwise-distinct keys whose values
need no percent-encoding. -/
def paramsToString (ps : List (String × String)) : String :=
  String.intercalate "&" (ps.map fun p => p.1 ++ "=" ++ p.2)

/-- Models `#mergeArrays`: concat, dedup through a JS `Set` (which keeps the
first occurrence of each element, in insertion order), back to an array. -/
def mergeArrays (array1 array2 : List String) : List String :=
  (array1 ++ array2).foldl (fun acc x => if x ∈ acc then acc else acc ++ [x]) []

/-- Models `JSON.stringify` on an array of strings that need no JSON escaping. -/
def jsonStringArray (l : List String) : String :=
  "[" ++ String.intercalate "," (l.map (fun s => "\"" ++ s ++ "\"")) ++ "]"

/-- Models `JSON.stringify({ keys, preds })` for such arrays. -/
def stringifyKeysPreds (keys preds : List String) : String :=
  "\x7b\"keys\":" ++ jsonStringArray keys ++ ",\"preds\":" ++ jsonStringArray preds ++ "\x7d"

/-- Builds the request record handed to `fetch`: `#api` only attaches the
body when it is truthy (`if (body) requestInit.body = body`). -/
def mkRequest (path : String) (body : Option String) (contentType : Option String) : Request :=
  { path := path,
    body := match body with
      | some s => if s ≠ "" then some s else none
      | none => none,
    contentType := contentType }

/-- The keys/preds part of `#syncResponseExtensions`:
`if (extensionsTxn.keys) ... if (extensionsTxn.preds) ...`
(a present array is truthy even when empty). -/
def syncKeysPreds (t : Txn) (ext : ExtensionsTxn) : Txn :=
  match ext.preds with
  | some ps =>
    match ext.keys with
    | some ks => { t with keys := mergeArrays t.keys ks,
                          preds := mergeArrays t.preds ps }
    | none => { t with preds := mergeArrays t.preds ps }
  | none =>
    match ext.keys with
    | some ks => { t with keys := mergeArrays t.keys ks }
    | none => t

/-- The start_ts part of `#syncResponseExtensions`, applied after the hash
update: adopt `start_ts` when `this.#startTs === 0`, throw
`fln__dgraph__start-ts-mismatch` when it differs from the adopted value,
then merge keys and preds.  The returned state holds the updates applied
before a throw. -/
def syncStartTs (t1 : Txn) (ext : ExtensionsTxn) : Txn × Option Err :=
  if t1.startTs = 0 then (syncKeysPreds { t1 with startTs := ext.start_ts } ext, none)
  else if t1.startTs ≠ ext.start_ts then
    (t1, some (.startTsMismatch t1.startTs ext.start_ts))
  else (syncKeysPreds t1 ext, none)

/-- Models `#syncResponseExtensions`: first `if (extensionsTxn.hash) this.#hash = ...`
(a string is truthy iff nonempty), then the start_ts logic and the
keys/preds merges. -/
def syncResponseExtensions (t : Txn) (ext : ExtensionsTxn) : Txn × Option Err :=
  syncStartTs (if ext.hash ≠ "" then { t with hash := ext.hash } else t) ext

/-- Query-string pairs built by `query`, in source order:
startTs (if truthy), hash (if truthy), timeout (if `> 0`, with an `s`
suffix), ro (if readOnly), be (if bestEffort). -/
def queryParams (t : Txn) : List (String × String) :=
  (if t.startTs ≠ 0 then [("startTs", toString t.startTs)] else []) ++
  (if t.hash ≠ "" then [("hash", t.hash)] else []) ++
  (if t.timeout > 0 then [("timeout", toString t.timeout ++ "s")] else []) ++
  (if t.readOnly then [("ro", "true")] else []) ++
  (if t.bestEffort then [("be", "true")] else [])

/-- Query-string pairs built by `mutate`, in source order:
commitNow (if true), startTs (if truthy), hash (if truthy). -/
def mutateParams (t : Txn) (commitNow : Bool) : List (String × String) :=
  (if commitNow then [("commitNow", "true")] else []) ++
  (if t.startTs ≠ 0 then [("startTs", toString t.startTs)] else []) ++
  (if t.hash ≠ "" then [("hash", t.hash)] else [])

/-- Path built by `mutate`: `searchParamsStr ? ... : 'mutate'`. -/
def mutatePath (t : Txn) (commitNow : Bool) : String :=
  if paramsToString (mutateParams t commitNow) ≠ "" then
    "mutate?" ++ paramsToString (mutateParams t commitNow)
  else "mutate"

/-- The mutation body: a set block or a delete block
(`mutation ? ... : ...`, so the set block wins when both are truthy —
unreachable past validation). -/
def mutateBody (mutation remove : String) : String :=
  if mutation ≠ "" then "\x7b set \x7b " ++ mutation ++ " \x7d \x7d"
  else "\x7b delete \x7b " ++ remove ++ " \x7d \x7d"

/-- The request issued by `commit` when mutations were done: both
`startTs` and `hash` are set unconditionally, in that order. -/
def commitRequest (t : Txn) : Request :=
  mkRequest ("commit?" ++ paramsToString [("startTs", toString t.startTs), ("hash", t.hash)])
    (some (stringifyKeysPreds t.keys t.preds)) (some enumContentType.json)

/-- The request issued by `abort` when mutations were done: `startTs`,
`hash`, `abort=true` in that order, no body, no `Content-Type`. -/
def abortRequest (t : Txn) : Request :=
  { path := "commit?" ++
      paramsToString [("startTs", toString t.startTs), ("hash", t.hash), ("abort", "true")],
    body := none, contentType := none }

/-- Models `#api` as it runs inside `abort`: there `this.#isAborted` is already
`true`, so the `await this.abort()` in the catch block is a no-op and the
raw failing response is rethrown (apiCall_of_isAborted below proves this
agrees with the general `apiCall`). -/
def apiFromAbort (t : Txn) (req : Request) (net : Nat → FetchResult) (i : Nat) : StepResult :=
  if 300 ≤ (net i).status then
    { txn := t, result := .error (.fetchFailure (net i)), requests := [req], next := i + 1 }
  else
    { txn := t, result := .ok (some (net i).body), requests := [req], next := i + 1 }

/-- Models `abort()`: a no-op when already aborted; otherwise set
`#isAborted = true` and, when mutations were done, call
`#api({ path: 'commit?startTs=...&hash=...&abort=true' })`. -/
def abortRun (t : Txn) (net : Nat → FetchResult) (i : Nat) : StepResult :=
  if t.isAborted then { txn := t, result := .ok none, requests := [], next := i }
  else if t.didMutations then
    apiFromAbort { t with isAborted := true } (abortRequest { t with isAborted := true }) net i
  else { txn := { t with isAborted := true }, result := .ok none, requests := [], next := i }

/-- Models `#api`: one `fetch`; `if (rFetch.status >= 300) throw rFetch` — note
there is no lower bound on the status in this file — otherwise return the
parsed body.  The catch block runs `await this.abort()` and then
`throw e`; when that nested abort itself throws, its error is what
propagates, since the `throw e` line is never reached.  (`abortRun` is
pure, so mentioning it three times evaluates the single JS call once.) -/
def apiCall (t : Txn) (req : Request) (net : Nat → FetchResult) (i : Nat) : StepResult :=
  if 300 ≤ (net i).status then
    { txn := (abortRun t net (i + 1)).txn,
      result := match (abortRun t net (i + 1)).result with
        | .error e2 => .error e2
        | .ok _ => .error (.fetchFailure (net i)),
      requests := req :: (abortRun t net (i + 1)).requests,
      next := (abortRun t net (i + 1)).next }
  else
    { txn := t, result := .ok (some (net i).body), requests := [req], next := i + 1 }

/-- Shared post-response step of `query` and `mutate`:
`else if (r?.extensions?.txn) this.#syncResponseExtensions(r.extensions.txn)`.
A throw from the sync propagates out of the method (it is outside
`#api`'s try/catch) with the field updates applied before the throw. -/
def syncAfter (a : StepResult) (rb : Option RespBody) : StepResult :=
  match rb with
  | some body =>
    match body.txn with
    | some ext =>
      match syncResponseExtensions a.txn ext with
      | (t2, some e) => { txn := t2, result := .error e, requests := a.requests, next := a.next }
      | (t2, none) => { txn := t2, result := a.result, requests := a.requests, next := a.next }
    | none => a
  | none => a

/-- Post-response step of `query`: on success set `#isClosed` when
`closeWhenDone`, otherwise reconcile extensions. -/
def postQuery (closeWhenDone : Bool) (a : StepResult) : StepResult :=
  match a.result with
  | .error _ => a
  | .ok rb =>
    if closeWhenDone then { a with txn := { a.txn with isClosed := true } }
    else syncAfter a rb

/-- Models `query(closeWhenDone, query)`: `#validateQuery` then one `#api` call
to `query?<params>` with the query text as body and the dql content
type. -/
def queryRun (t : Txn) (closeWhenDone : Bool) (query : String) (net : Nat → FetchResult) (i : Nat) :
    StepResult :=
  if t.isAborted then { txn := t, result := .error .alreadyAborted, requests := [], next := i }
  else if t.isCommited then { txn := t, result := .error .alreadyCommited, requests := [], next := i }
  else if t.isClosed then { txn := t, result := .error .alreadyClosed, requests := [], next := i }
  else
    postQuery closeWhenDone
      (apiCall t
        (mkRequest ("query?" ++ paramsToString (queryParams t)) (some query)
          (some enumContentType.dql)) net i)

/-- Post-response step of `mutate`: on success set `#isCommited` when
`commitNow` (and do not reconcile), otherwise reconcile extensions. -/
def postMutate (commitNow : Bool) (a : StepResult) : StepResult :=
  match a.result with
  | .error _ => a
  | .ok rb =>
    if commitNow then { a with txn := { a.txn with isCommited := true } }
    else syncAfter a rb

/-- Models `mutate({ mutation, remove, commitNow })`: `#validateMutate` in source
order, then `this.#didMutations = true` before the `#api` call to
`mutate<?params>` with the rdf content type. -/
def mutateRun (t : Txn) (mutation remove : String) (commitNow : Bool)
    (net : Nat → FetchResult) (i : Nat) : StepResult :=
  if mutation = "" ∧ remove = "" then
    { txn := t, result := .error .emptyMutate, requests := [], next := i }
  else if mutation ≠ "" ∧ remove ≠ "" then
    { txn := t, result := .error .fullMutate, requests := [], next := i }
  else if t.isAborted then { txn := t, result := .error .alreadyAborted, requests := [], next := i }
  else if t.isCommited then { txn := t, result := .error .alreadyCommited, requests := [], next := i }
  else if t.isClosed then { txn := t, result := .error .alreadyClosed, requests := [], next := i }
  else if t.readOnly then { txn := t, result := .error .readonlyMutation, requests := [], next := i }
  else
    postMutate commitNow
      (apiCall { t with didMutations := true }
        (mkRequest (mutatePath { t with didMutations := true } commitNow)
          (some (mutateBody mutation remove)) (some enumContentType.rdf)) net i)

/-- Models `commit()`: `#validateCommit`, then `this.#isCommited = true`; when
mutations were done, one `#api` call to `commit?startTs=...&hash=...`
with the `{keys, preds}` JSON body, otherwise return nothing.  (The flag
is set before the `didMutations` test in the source; the test reads the
same unmodified field.) -/
def commitRun (t : Txn) (net : Nat → FetchResult) (i : Nat) : StepResult :=
  if t.isAborted then { txn := t, result := .error .alreadyAborted, requests := [], next := i }
  else if t.isCommited then { txn := t, result := .error .alreadyCommited, requests := [], next := i }
  else if t.isClosed then { txn := t, result := .error .alreadyClosed, requests := [], next := i }
  else if t.didMutations then
    apiCall { t with isCommited := true } (commitRequest { t with isCommited := true }) net i
  else { txn := { t with isCommited := true }, result := .ok none, requests := [], next := i }

/-- One public method call, for reasoning about call sequences. -/
inductive Op where
  | query (closeWhenDone : Bool) (q : String)
  | mutate (mutation remove : String) (commitNow : Bool)
  | commit
  | abort
deriving Repr, DecidableEq

/-- Dispatch one call. -/
def runOp (t : Txn) (op : Op) (net : Nat → FetchResult) (i : Nat) : StepResult :=
  match op with
  | .query c q => queryRun t c q net i
  | .mutate m r c => mutateRun t m r c net i
  | .commit => commitRun t net i
  | .abort => abortRun t net i

/-- Run a sequence of calls on one handle, threading the state and the
oracle position (returned values and thrown errors go to the caller and
do not stop the sequence). -/
def runOps (t : Txn) (ops : List Op) (net : Nat → FetchResult) (i : Nat) : Txn × Nat :=
  match ops with
  | [] => (t, i)
  | op :: rest => runOps (runOp t op net i).txn rest net (runOp t op net i).next

/-! ### Helper lemmas -/

theorem mem_dedupFold (l acc : List String) (x : String) :
    x ∈ l.foldl (fun a y => if y ∈ a then a else a ++ [y]) acc ↔ x ∈ acc ∨ x ∈ l := by
  induction l generalizing acc with
  | nil => simp
  | cons b l ih =>
    simp only [List.foldl_cons, ih, List.mem_cons]
    by_cases h : b ∈ acc
    · rw [if_pos h]
      constructor
      · rintro (h1 | h1)
        · exact Or.inl h1
        · exact Or.inr (Or.inr h1)
      · rintro (h1 | h1 | h1)
        · exact Or.inl h1
        · exact Or.inl (h1 ▸ h)
        · exact Or.inr h1
    · rw [if_neg h]
      simp only [List.mem_append, List.mem_singleton]
      tauto

theorem nodup_dedupFold (l acc : List String) (h : acc.Nodup) :
    (l.foldl (fun a y => if y ∈ a then a else a ++ [y]) acc).Nodup := by
  induction l generalizing acc with
  | nil => exact h
  | cons b l ih =>
    simp only [List.foldl_cons]
    by_cases hb : b ∈ acc
    · rw [if_pos hb]; exact ih _ h
    · rw [if_neg hb]
      refine ih _ ?_
      simp [List.nodup_append, h, hb]

theorem mem_mergeArrays (a b : List String) (x : String) :
    x ∈ mergeArrays a b ↔ x ∈ a ∨ x ∈ b := by
  unfold mergeArrays
  rw [mem_dedupFold]
  simp

theorem nodup_mergeArrays (a b : List String) : (mergeArrays a b).Nodup :=
  nodup_dedupFold _ _ List.nodup_nil

@[simp] theorem syncKeysPreds_hash (t : Txn) (ext : ExtensionsTxn) :
    (syncKeysPreds t ext).hash = t.hash := by
  unfold syncKeysPreds; cases ext.preds <;> cases ext.keys <;> rfl

@[simp] theorem syncKeysPreds_startTs (t : Txn) (ext : ExtensionsTxn) :
    (syncKeysPreds t ext).startTs = t.startTs := by
  unfold syncKeysPreds; cases ext.preds <;> cases ext.keys <;> rfl

@[simp] theorem syncKeysPreds_isClosed (t : Txn) (ext : ExtensionsTxn) :
    (syncKeysPreds t ext).isClosed = t.isClosed := by
  unfold syncKeysPreds; cases ext.preds <;> cases ext.keys <;> rfl

@[simp] theorem syncKeysPreds_isCommited (t : Txn) (ext : ExtensionsTxn) :
    (syncKeysPreds t ext).isCommited = t.isCommited := by
  unfold syncKeysPreds; cases ext.preds <;> cases ext.keys <;> rfl

@[simp] theorem syncKeysPreds_isAborted (t : Txn) (ext : ExtensionsTxn) :
    (syncKeysPreds t ext).isAborted = t.isAborted := by
  unfold syncKeysPreds; cases ext.preds <;> cases ext.keys <;> rfl

@[simp] theorem syncKeysPreds_didMutations (t : Txn) (ext : ExtensionsTxn) :
    (syncKeysPreds t ext).didMutations = t.didMutations := by
  unfold syncKeysPreds; cases ext.preds <;> cases ext.keys <;> rfl

@[simp] theorem syncResponseExtensions_isClosed (t : Txn) (ext : ExtensionsTxn) :
    (syncResponseExtensions t ext).1.isClosed = t.isClosed := by
  unfold syncResponseExtensions syncStartTs
  split_ifs <;> simp

@[simp] theorem syncResponseExtensions_isCommited (t : Txn) (ext : ExtensionsTxn) :
    (syncResponseExtensions t ext).1.isCommited = t.isCommited := by
  unfold syncResponseExtensions syncStartTs
  split_ifs <;> simp

@[simp] theorem syncResponseExtensions_isAborted (t : Txn) (ext : ExtensionsTxn) :
    (syncResponseExtensions t ext).1.isAborted = t.isAborted := by
  unfold syncResponseExtensions syncStartTs
  split_ifs <;> simp

@[simp] theorem syncResponseExtensions_didMutations (t : Txn) (ext : ExtensionsTxn) :
    (syncResponseExtensions t ext).1.didMutations = t.didMutations := by
  unfold syncResponseExtensions syncStartTs
  split_ifs <;> simp

theorem syncResponseExtensions_startTs_of_ne (t : Txn) (ext : ExtensionsTxn)
    (h : t.startTs ≠ 0) : (syncResponseExtensions t ext).1.startTs = t.startTs := by
  unfold syncResponseExtensions syncStartTs
  split_ifs <;> simp_all

theorem abortRun_txn (t : Txn) (net : Nat → FetchResult) (i : Nat) :
    (abortRun t net i).txn = { t with isAborted := true } := by
  obtain ⟨ks, ps, h, ak, ep, st, tm, ro, be, cl, cm, ab, dm⟩ := t
  unfold abortRun apiFromAbort
  split_ifs <;> simp_all

theorem abortRun_of_isAborted (t : Txn) (net : Nat → FetchResult) (i : Nat)
    (h : t.isAborted = true) :
    abortRun t net i = { txn := t, result := .ok none, requests := [], next := i } := by
  unfold abortRun
  rw [if_pos h]

theorem abortRun_requests_length (t : Txn) (net : Nat → FetchResult) (i : Nat) :
    (abortRun t net i).requests.length ≤ 1 := by
  unfold abortRun apiFromAbort
  split_ifs <;> simp

/-- Sanity: the general `#api` agrees with `apiFromAbort` whenever the
handle is already aborted, so modelling abort's inner `#api` with
`apiFromAbort` is faithful. -/
theorem apiCall_of_isAborted (t : Txn) (req : Request) (net : Nat → FetchResult) (i : Nat)
    (h : t.isAborted = true) : apiCall t req net i = apiFromAbort t req net i := by
  unfold apiCall apiFromAbort
  rw [abortRun_of_isAborted _ _ _ h]

theorem apiCall_success (t : Txn) (req : Request) (net : Nat → FetchResult) (i : Nat)
    (h : (net i).status < 300) :
    apiCall t req net i =
      { txn := t, result := .ok (some (net i).body), requests := [req], next := i + 1 } := by
  unfold apiCall
  rw [if_neg (by omega)]

theorem apiCall_txn (t : Txn) (req : Request) (net : Nat → FetchResult) (i : Nat) :
    (apiCall t req net i).txn =
      if 300 ≤ (net i).status then { t with isAborted := true } else t := by
  unfold apiCall
  split_ifs with h
  · exact abortRun_txn t net (i + 1)
  · rfl

theorem apiCall_error_of_ge (t : Txn) (req : Request) (net : Nat → FetchResult) (i : Nat)
    (h : 300 ≤ (net i).status) : ∃ e, (apiCall t req net i).result = .error e := by
  unfold apiCall
  rw [if_pos h]
  rcases (abortRun t net (i + 1)).result with e | v
  · exact ⟨e, rfl⟩
  · exact ⟨.fetchFailure (net i), rfl⟩

theorem apiCall_status_of_ok (t : Txn) (req : Request) (net : Nat → FetchResult) (i : Nat)
    (rb : Option RespBody) (h : (apiCall t req net i).result = .ok rb) :
    (net i).status < 300 := by
  by_contra hc
  push_neg at hc
  obtain ⟨e, he⟩ := apiCall_error_of_ge t req net i hc
  rw [h] at he
  cases he

theorem apiCall_failure (t : Txn) (req : Request) (net : Nat → FetchResult) (i : Nat)
    (h : 300 ≤ (net i).status) :
    apiCall t req net i =
      { txn := (abortRun t net (i + 1)).txn,
        result := match (abortRun t net (i + 1)).result with
          | .error e2 => .error e2
          | .ok _ => .error (.fetchFailure (net i)),
        requests := req :: (abortRun t net (i + 1)).requests,
        next := (abortRun t net (i + 1)).next } := by
  unfold apiCall
  rw [if_pos h]

theorem abortRun_not_aborted_mut (t : Txn) (net : Nat → FetchResult) (i : Nat)
    (hA : t.isAborted = false) (hd : t.didMutations = true) :
    abortRun t net i =
      apiFromAbort { t with isAborted := true } (abortRequest { t with isAborted := true }) net i := by
  unfold abortRun
  rw [if_neg (by simp [hA]), if_pos (by simp [hd])]

theorem abortRun_not_aborted_nomut (t : Txn) (net : Nat → FetchResult) (i : Nat)
    (hA : t.isAborted = false) (hd : t.didMutations = false) :
    abortRun t net i =
      { txn := { t with isAborted := true }, result := .ok none, requests := [], next := i } := by
  unfold abortRun
  rw [if_neg (by simp [hA]), if_neg (by simp [hd])]

theorem postQuery_error (c : Bool) (a : StepResult) (e : Err) (h : a.result = .error e) :
    postQuery c a = a := by
  unfold postQuery
  rw [h]

theorem postMutate_error (c : Bool) (a : StepResult) (e : Err) (h : a.result = .error e) :
    postMutate c a = a := by
  unfold postMutate
  rw [h]

theorem syncAfter_isCommited (a : StepResult) (rb : Option RespBody) :
    (syncAfter a rb).txn.isCommited = a.txn.isCommited := by
  unfold syncAfter
  rcases rb with _ | ⟨otxn⟩
  · rfl
  rcases otxn with _ | ext
  · rfl
  have h2 := syncResponseExtensions_isCommited a.txn ext
  rcases h : syncResponseExtensions a.txn ext with ⟨t2, e?⟩
  rw [h] at h2
  simp only [h]
  rcases e? with _ | e <;> exact h2

theorem syncAfter_isClosed (a : StepResult) (rb : Option RespBody) :
    (syncAfter a rb).txn.isClosed = a.txn.isClosed := by
  unfold syncAfter
  rcases rb with _ | ⟨otxn⟩
  · rfl
  rcases otxn with _ | ext
  · rfl
  have h2 := syncResponseExtensions_isClosed a.txn ext
  rcases h : syncResponseExtensions a.txn ext with ⟨t2, e?⟩
  rw [h] at h2
  simp only [h]
  rcases e? with _ | e <;> exact h2

theorem apiCall_isCommited (t : Txn) (req : Request) (net : Nat → FetchResult) (i : Nat) :
    (apiCall t req net i).txn.isCommited = t.isCommited := by
  rw [apiCall_txn]
  split_ifs <;> rfl

theorem apiCall_isClosed (t : Txn) (req : Request) (net : Nat → FetchResult) (i : Nat) :
    (apiCall t req net i).txn.isClosed = t.isClosed := by
  rw [apiCall_txn]
  split_ifs <;> rfl

theorem postQuery_isCommited (c : Bool) (a : StepResult) :
    (postQuery c a).txn.isCommited = a.txn.isCommited := by
  unfold postQuery
  rcases a.result with e | rb
  · rfl
  split_ifs
  · rfl
  · exact syncAfter_isCommited a rb

theorem postMutate_isClosed (c : Bool) (a : StepResult) :
    (postMutate c a).txn.isClosed = a.txn.isClosed := by
  unfold postMutate
  rcases a.result with e | rb
  · rfl
  split_ifs
  · rfl
  · exact syncAfter_isClosed a rb

theorem queryRun_isCommited (t : Txn) (c : Bool) (q : String) (net : Nat → FetchResult) (i : Nat) :
    (queryRun t c q net i).txn.isCommited = t.isCommited := by
  unfold queryRun
  split_ifs
  · rfl
  · rfl
  · rfl
  · rw [postQuery_isCommited, apiCall_isCommited]

theorem mutateRun_isClosed (t : Txn) (m r : String) (c : Bool) (net : Nat → FetchResult) (i : Nat) :
    (mutateRun t m r c net i).txn.isClosed = t.isClosed := by
  unfold mutateRun
  split_ifs
  · rfl
  · rfl
  · rfl
  · rfl
  · rfl
  · rfl
  · rw [postMutate_isClosed, apiCall_isClosed]

theorem commitRun_isClosed (t : Txn) (net : Nat → FetchResult) (i : Nat) :
    (commitRun t net i).txn.isClosed = t.isClosed := by
  unfold commitRun
  split_ifs
  · rfl
  · rfl
  · rfl
  · rw [apiCall_isClosed]
  · rfl

theorem queryRun_stateError (t : Txn) (c : Bool) (q : String) (net : Nat → FetchResult) (i : Nat)
    (h : t.isAborted = true ∨ t.isCommited = true ∨ t.isClosed = true) :
    (queryRun t c q net i).txn = t ∧ (queryRun t c q net i).requests = [] ∧
      ∃ e, (queryRun t c q net i).result = .error e := by
  unfold queryRun
  split_ifs with h1 h2 h3
  · exact ⟨rfl, rfl, _, rfl⟩
  · exact ⟨rfl, rfl, _, rfl⟩
  · exact ⟨rfl, rfl, _, rfl⟩
  · exfalso; rcases h with h | h | h <;> simp_all

theorem mutateRun_stateError (t : Txn) (m r : String) (c : Bool) (net : Nat → FetchResult)
    (i : Nat) (h : t.isAborted = true ∨ t.isCommited = true ∨ t.isClosed = true) :
    (mutateRun t m r c net i).txn = t ∧ (mutateRun t m r c net i).requests = [] ∧
      ∃ e, (mutateRun t m r c net i).result = .error e := by
  unfold mutateRun
  split_ifs with h1 h2 h3 h4 h5 h6
  · exact ⟨rfl, rfl, _, rfl⟩
  · exact ⟨rfl, rfl, _, rfl⟩
  · exact ⟨rfl, rfl, _, rfl⟩
  · exact ⟨rfl, rfl, _, rfl⟩
  · exact ⟨rfl, rfl, _, rfl⟩
  · exact ⟨rfl, rfl, _, rfl⟩
  · exfalso; rcases h with h | h | h <;> simp_all

theorem commitRun_stateError (t : Txn) (net : Nat → FetchResult) (i : Nat)
    (h : t.isAborted = true ∨ t.isCommited = true ∨ t.isClosed = true) :
    (commitRun t net i).txn = t ∧ (commitRun t net i).requests = [] ∧
      ∃ e, (commitRun t net i).result = .error e := by
  unfold commitRun
  split_ifs with h1 h2 h3 h4
  · exact ⟨rfl, rfl, _, rfl⟩
  · exact ⟨rfl, rfl, _, rfl⟩
  · exact ⟨rfl, rfl, _, rfl⟩
  · exfalso; rcases h with h | h | h <;> simp_all
  · exfalso; rcases h with h | h | h <;> simp_all

theorem runOp_excl (t : Txn) (op : Op) (net : Nat → FetchResult) (i : Nat)
    (h : ¬(t.isClosed = true ∧ t.isCommited = true)) :
    ¬((runOp t op net i).txn.isClosed = true ∧ (runOp t op net i).txn.isCommited = true) := by
  rcases op with ⟨c, q⟩ | ⟨m, r, c⟩ | _ | _
  · rintro ⟨hcl, hcm⟩
    rw [runOp, queryRun_isCommited] at hcm
    obtain ⟨heq, -, -⟩ := queryRun_stateError t c q net i (Or.inr (Or.inl hcm))
    rw [runOp, heq] at hcl
    exact h ⟨hcl, hcm⟩
  · rintro ⟨hcl, hcm⟩
    rw [runOp, mutateRun_isClosed] at hcl
    obtain ⟨heq, -, -⟩ := mutateRun_stateError t m r c net i (Or.inr (Or.inr hcl))
    rw [runOp, heq] at hcm
    exact h ⟨hcl, hcm⟩
  · rintro ⟨hcl, hcm⟩
    rw [runOp, commitRun_isClosed] at hcl
    obtain ⟨heq, -, -⟩ := commitRun_stateError t net i (Or.inr (Or.inr hcl))
    rw [runOp, heq] at hcm
    exact h ⟨hcl, hcm⟩
  · rintro ⟨hcl, hcm⟩
    rw [runOp, abortRun_txn] at hcl hcm
    exact h ⟨hcl, hcm⟩

theorem runOps_excl (t : Txn) (ops : List Op) (net : Nat → FetchResult) (i : Nat)
    (h : ¬(t.isClosed = true ∧ t.isCommited = true)) :
    ¬((runOps t ops net i).1.isClosed = true ∧ (runOps t ops net i).1.isCommited = true) := by
  induction ops generalizing t i with
  | nil => exact h
  | cons op rest ih =>
    exact ih _ _ (runOp_excl t op net i h)

theorem commitPath_eq (ts h : String) :
    "commit?" ++ paramsToString [("startTs", ts), ("hash", h)] =
      "commit?startTs=" ++ ts ++ "&hash=" ++ h := by
  show ("commit?" : String) ++ ((("startTs" ++ "=" ++ ts) ++ "&") ++ ("hash" ++ "=" ++ h)) = _
  simp only [String.append_assoc]
  rfl

theorem abortPath_eq (ts h : String) :
    "commit?" ++ paramsToString [("startTs", ts), ("hash", h), ("abort", "true")] =
      "commit?startTs=" ++ ts ++ "&hash=" ++ h ++ "&abort=true" := by
  show ("commit?" : String) ++
      (((("startTs" ++ "=" ++ ts) ++ "&") ++ ("hash" ++ "=" ++ h) ++ "&") ++
        ("abort" ++ "=" ++ "true")) = _
  simp only [String.append_assoc]
  rfl

theorem stringifyKeysPreds_ne (ks ps : List String) : stringifyKeysPreds ks ps ≠ "" := by
  unfold stringifyKeysPreds
  intro hc
  have h2 := congrArg String.length hc
  simp only [String.length_append] at h2
  have h3 : ("\x7b\"keys\":" : String).length = 8 := by decide
  have h4 : ("" : String).length = 0 := by decide
  omega

theorem mutateBody_ne (m r : String) : mutateBody m r ≠ "" := by
  unfold mutateBody
  have h3 : 0 < ("\x7b set \x7b " : String).length := by decide
  have h5 : 0 < ("\x7b delete \x7b " : String).length := by decide
  have h4 : ("" : String).length = 0 := by decide
  split_ifs <;> intro hc <;> have h2 := congrArg String.length hc <;>
    simp only [String.length_append] at h2 <;> omega

theorem commitRequest_eq (t : Txn) :
    commitRequest t =
      ⟨"commit?startTs=" ++ toString t.startTs ++ "&hash=" ++ t.hash,
        some (stringifyKeysPreds t.keys t.preds), some "application/json"⟩ := by
  unfold commitRequest mkRequest
  rw [commitPath_eq]
  dsimp only
  rw [if_pos (stringifyKeysPreds_ne t.keys t.preds)]
  rfl

theorem abortRequest_eq (t : Txn) :
    abortRequest t =
      ⟨"commit?startTs=" ++ toString t.startTs ++ "&hash=" ++ t.hash ++ "&abort=true",
        none, none⟩ := by
  unfold abortRequest
  rw [abortPath_eq]

theorem syncAfter_requests (a : StepResult) (rb : Option RespBody) :
    (syncAfter a rb).requests = a.requests := by
  unfold syncAfter
  rcases rb with _ | ⟨otxn⟩
  · rfl
  rcases otxn with _ | ext
  · rfl
  rcases h : syncResponseExtensions a.txn ext with ⟨t2, e?⟩
  simp only [h]
  rcases e? with _ | e <;> rfl

theorem postQuery_requests (c : Bool) (a : StepResult) :
    (postQuery c a).requests = a.requests := by
  unfold postQuery
  rcases a.result with e | rb
  · rfl
  split_ifs
  · rfl
  · exact syncAfter_requests a rb

theorem postMutate_requests (c : Bool) (a : StepResult) :
    (postMutate c a).requests = a.requests := by
  unfold postMutate
  rcases a.result with e | rb
  · rfl
  split_ifs
  · rfl
  · exact syncAfter_requests a rb

theorem apiCall_requests_head (t : Txn) (req : Request) (net : Nat → FetchResult) (i : Nat) :
    (apiCall t req net i).requests.head? = some req := by
  unfold apiCall
  split_ifs <;> rfl

theorem apiCall_requests_ne (t : Txn) (req : Request) (net : Nat → FetchResult) (i : Nat) :
    (apiCall t req net i).requests ≠ [] := by
  unfold apiCall
  split_ifs <;> simp

theorem queryRun_active (t : Txn) (c : Bool) (q : String) (net : Nat → FetchResult) (i : Nat)
    (hA : t.isAborted = false) (hC : t.isCommited = false) (hX : t.isClosed = false) :
    queryRun t c q net i =
      postQuery c
        (apiCall t
          (mkRequest ("query?" ++ paramsToString (queryParams t)) (some q)
            (some enumContentType.dql)) net i) := by
  unfold queryRun
  rw [if_neg (by simp [hA]), if_neg (by simp [hC]), if_neg (by simp [hX])]

theorem mutateRun_active (t : Txn) (m r : String) (cn : Bool) (net : Nat → FetchResult) (i : Nat)
    (hA : t.isAborted = false) (hC : t.isCommited = false) (hX : t.isClosed = false)
    (hro : t.readOnly = false) (hv : ¬(m = "" ∧ r = "")) (hv2 : ¬(m ≠ "" ∧ r ≠ "")) :
    mutateRun t m r cn net i =
      postMutate cn
        (apiCall { t with didMutations := true }
          (mkRequest (mutatePath { t with didMutations := true } cn)
            (some (mutateBody m r)) (some enumContentType.rdf)) net i) := by
  unfold mutateRun
  rw [if_neg hv, if_neg hv2, if_neg (by simp [hA]), if_neg (by simp [hC]), if_neg (by simp [hX]),
    if_neg (by simp [hro])]

theorem commitRun_of_commited (t : Txn) (net : Nat → FetchResult) (i : Nat)
    (hA : t.isAborted = false) (hC : t.isCommited = true) :
    commitRun t net i = { txn := t, result := .error .alreadyCommited, requests := [], next := i } := by
  unfold commitRun
  rw [if_neg (by simp [hA]), if_pos (by simp [hC])]

/-- On a not-yet-aborted handle that did mutations, a failing `#api`
call aborts the handle, issues the abort request right after the failing
one, and throws the original raw response unless the abort's own fetch
also fails, in which case that later response is thrown instead. -/
theorem apiCall_fail_didMut (t : Txn) (req : Request) (net : Nat → FetchResult) (i : Nat)
    (hA : t.isAborted = false) (hd : t.didMutations = true) (hfail : 300 ≤ (net i).status) :
    apiCall t req net i =
      { txn := { t with isAborted := true },
        result := if 300 ≤ (net (i + 1)).status then .error (.fetchFailure (net (i + 1)))
          else .error (.fetchFailure (net i)),
        requests := [req, abortRequest { t with isAborted := true }],
        next := i + 2 } := by
  rw [apiCall_failure _ _ _ _ hfail, abortRun_not_aborted_mut t net (i + 1) hA hd]
  unfold apiFromAbort
  by_cases h2 : 300 ≤ (net (i + 1)).status
  · rw [if_pos h2, if_pos h2]
  · rw [if_neg h2, if_neg h2]

/-! ### Claims -/

/-- C1 counterexample: on a fresh handle, `commit()` (no mutations, so no
network call) sets `isCommited`, and a following `abort()` — which has no
precondition check — sets `isAborted` as well, so both terminal flags
`committed` and `aborted` end up true, refuting "at most one of the
terminal-state flags ever becomes true". -/
theorem claim_C1_counterexample :
    (runOps (mkTxn "abc" "https://example.com" false false 0) [Op.commit, Op.abort]
      (fun _ => ⟨200, ⟨none⟩⟩) 0).1.isCommited = true ∧
    (runOps (mkTxn "abc" "https://example.com" false false 0) [Op.commit, Op.abort]
      (fun _ => ⟨200, ⟨none⟩⟩) 0).1.isAborted = true :=
  ⟨rfl, rfl⟩

/-- C1 (amended): the `closed` and `committed` flags are mutually
exclusive on every handle reachable from the constructor by any call
sequence, and once any terminal flag is true every subsequent `query`,
`mutate` or `commit` fails with no state change and no network call, and
no call ever clears a terminal flag; but `aborted` is not exclusive with
the other two — `abort()` (and the auto-abort on transport failure) can
still set it afterwards. -/
theorem claim_C1 (t : Txn) (c cn : Bool) (q m r : String) (net : Nat → FetchResult) (i : Nat)
    (h : t.isAborted = true ∨ t.isCommited = true ∨ t.isClosed = true) :
    (∀ (ak ep : String) (ro be : Bool) (tm : Int) (ops : List Op) (net2 : Nat → FetchResult),
      ¬((runOps (mkTxn ak ep ro be tm) ops net2 0).1.isClosed = true ∧
        (runOps (mkTxn ak ep ro be tm) ops net2 0).1.isCommited = true))
    ∧ ((queryRun t c q net i).txn = t ∧ (queryRun t c q net i).requests = [] ∧
        ∃ e, (queryRun t c q net i).result = .error e)
    ∧ ((mutateRun t m r cn net i).txn = t ∧ (mutateRun t m r cn net i).requests = [] ∧
        ∃ e, (mutateRun t m r cn net i).result = .error e)
    ∧ ((commitRun t net i).txn = t ∧ (commitRun t net i).requests = [] ∧
        ∃ e, (commitRun t net i).result = .error e)
    ∧ (∀ op : Op, (runOp t op net i).txn.isAborted = true ∨
        (runOp t op net i).txn.isCommited = true ∨ (runOp t op net i).txn.isClosed = true) := by
  refine ⟨?_, queryRun_stateError t c q net i h, mutateRun_stateError t m r cn net i h,
    commitRun_stateError t net i h, ?_⟩
  · intro ak ep ro be tm ops net2
    exact runOps_excl _ ops net2 0 (by simp [mkTxn])
  · intro op
    rcases op with ⟨c2, q2⟩ | ⟨m2, r2, c2⟩ | _ | _
    · obtain ⟨heq, -, -⟩ := queryRun_stateError t c2 q2 net i h
      rw [runOp, heq]; exact h
    · obtain ⟨heq, -, -⟩ := mutateRun_stateError t m2 r2 c2 net i h
      rw [runOp, heq]; exact h
    · obtain ⟨heq, -, -⟩ := commitRun_stateError t net i h
      rw [runOp, heq]; exact h
    · rw [runOp, abortRun_txn]; exact Or.inl rfl

/-- Witness for claim_C1 at a concrete aborted handle. -/
theorem claim_C1_witness :
    (⟨[], [], "", "abc", "e", 0, 600, false, false, false, false, true, false⟩ : Txn).isAborted
        = true ∧
    (queryRun ⟨[], [], "", "abc", "e", 0, 600, false, false, false, false, true, false⟩ false "q"
      (fun _ => ⟨200, ⟨none⟩⟩) 0).requests = [] :=
  ⟨rfl, (claim_C1 ⟨[], [], "", "abc", "e", 0, 600, false, false, false, false, true, false⟩
    false false "q" "m" "" (fun _ => ⟨200, ⟨none⟩⟩) 0 (Or.inl rfl)).2.1.2.1⟩

/-- C2 (code bug): in DgraphTransaction.js `#api` only tests
`rFetch.status >= 300`, so a response with status 199 — outside
[200, 300) — is accepted as a success: its body is parsed and returned,
no error is thrown and no abort happens, contradicting the claim (and
the repository's own test titled "throws if api call has a response
status less then 200", as well as the sibling implementation variant,
which checks `rFetch.status < 200 || rFetch.status >= 300`). -/
theorem claim_C2_bug :
    (queryRun (mkTxn "abc" "https://example.com" false false 20) false "q"
        (fun _ => ⟨199, ⟨none⟩⟩) 0).result = .ok (some ⟨none⟩) ∧
    (queryRun (mkTxn "abc" "https://example.com" false false 20) false "q"
        (fun _ => ⟨199, ⟨none⟩⟩) 0).txn.isAborted = false ∧
    (queryRun (mkTxn "abc" "https://example.com" false false 20) false "q"
        (fun _ => ⟨199, ⟨none⟩⟩) 0).requests.length = 1 :=
  ⟨rfl, rfl, rfl⟩

/-- C3 counterexample: `mutate` on a fresh handle whose fetch fails with
status 500, followed by the implicit abort whose own fetch fails with
status 502: the error that propagates to the caller is the abort
attempt's raw response (status 502), not the original transport error
(status 500) — in `#api`'s catch block, `await this.abort()` throws
before the `throw e` line is reached. -/
theorem claim_C3_counterexample :
    (mutateRun (mkTxn "abc" "https://example.com" false false 0) "m" "" false
        (fun n => if n = 0 then ⟨500, ⟨none⟩⟩ else ⟨502, ⟨none⟩⟩) 0).result
      = .error (.fetchFailure ⟨502, ⟨none⟩⟩) ∧
    (Err.fetchFailure ⟨502, ⟨none⟩⟩ ≠ Err.fetchFailure ⟨500, ⟨none⟩⟩) ∧
    (mutateRun (mkTxn "abc" "https://example.com" false false 0) "m" "" false
        (fun n => if n = 0 then ⟨500, ⟨none⟩⟩ else ⟨502, ⟨none⟩⟩) 0).txn.isAborted = true := by
  refine ⟨rfl, by decide, rfl⟩

/-- C3 (amended): for every `query` or `mutate` call that fails at the
transport layer on a handle with didMutate true (`mutate` sets the flag
itself before its request, so this covers every failing mutate), the
implicit abort attempt is made before the error is propagated — the
handle ends aborted and the abort request is issued immediately after
the failing one; the error ultimately thrown is the original transport
error when the abort attempt's own network call succeeds, but when that
call also fails, the abort attempt's error replaces the original and is
what the caller receives. -/
theorem claim_C3 (t : Txn) (c cn : Bool) (q m r : String) (net : Nat → FetchResult) (i : Nat)
    (hA : t.isAborted = false) (hC : t.isCommited = false) (hX : t.isClosed = false)
    (hro : t.readOnly = false) (hv : ¬(m = "" ∧ r = "")) (hv2 : ¬(m ≠ "" ∧ r ≠ ""))
    (hfail : 300 ≤ (net i).status) :
    (t.didMutations = true →
      (queryRun t c q net i).txn.isAborted = true
      ∧ (queryRun t c q net i).requests =
          [mkRequest ("query?" ++ paramsToString (queryParams t)) (some q)
            (some enumContentType.dql),
           abortRequest { t with isAborted := true }]
      ∧ ((net (i + 1)).status < 300 →
          (queryRun t c q net i).result = .error (.fetchFailure (net i)))
      ∧ (300 ≤ (net (i + 1)).status →
          (queryRun t c q net i).result = .error (.fetchFailure (net (i + 1)))))
    ∧ ((mutateRun t m r cn net i).txn.isAborted = true
      ∧ (mutateRun t m r cn net i).txn.didMutations = true
      ∧ (mutateRun t m r cn net i).requests =
          [mkRequest (mutatePath { t with didMutations := true } cn)
            (some (mutateBody m r)) (some enumContentType.rdf),
           abortRequest { t with didMutations := true, isAborted := true }]
      ∧ ((net (i + 1)).status < 300 →
          (mutateRun t m r cn net i).result = .error (.fetchFailure (net i)))
      ∧ (300 ≤ (net (i + 1)).status →
          (mutateRun t m r cn net i).result = .error (.fetchFailure (net (i + 1))))) := by
  constructor
  · intro hd
    rw [queryRun_active t c q net i hA hC hX, apiCall_fail_didMut t _ net i hA hd hfail]
    by_cases h2 : 300 ≤ (net (i + 1)).status
    · rw [if_pos h2, postQuery_error _ _ _ rfl]
      exact ⟨rfl, rfl, fun hlt => absurd h2 (by omega), fun _ => rfl⟩
    · rw [if_neg h2, postQuery_error _ _ _ rfl]
      exact ⟨rfl, rfl, fun _ => rfl, fun hge => absurd hge h2⟩
  · rw [mutateRun_active t m r cn net i hA hC hX hro hv hv2,
      apiCall_fail_didMut { t with didMutations := true } _ net i hA rfl hfail]
    by_cases h2 : 300 ≤ (net (i + 1)).status
    · rw [if_pos h2, postMutate_error _ _ _ rfl]
      exact ⟨rfl, rfl, rfl, fun hlt => absurd h2 (by omega), fun _ => rfl⟩
    · rw [if_neg h2, postMutate_error _ _ _ rfl]
      exact ⟨rfl, rfl, rfl, fun _ => rfl, fun hge => absurd hge h2⟩

/-- Witness for claim_C3: a failing query on a mutated handle whose
abort call succeeds throws the original response, and a failing mutate
on a fresh handle whose abort call also fails throws the abort's
response. -/
theorem claim_C3_witness :
    (queryRun ⟨[], [], "", "abc", "e", 9, 600, false, false, false, false, false, true⟩ false "q"
        (fun n => if n = 0 then ⟨500, ⟨none⟩⟩ else ⟨200, ⟨none⟩⟩) 0).result =
      .error (.fetchFailure ⟨500, ⟨none⟩⟩) ∧
    (mutateRun (mkTxn "abc" "e" false false 0) "m" "" false
        (fun n => if n = 0 then ⟨500, ⟨none⟩⟩ else ⟨502, ⟨none⟩⟩) 0).result =
      .error (.fetchFailure ⟨502, ⟨none⟩⟩) :=
  ⟨((claim_C3 ⟨[], [], "", "abc", "e", 9, 600, false, false, false, false, false, true⟩
      false false "q" "m" "" (fun n => if n = 0 then ⟨500, ⟨none⟩⟩ else ⟨200, ⟨none⟩⟩) 0
      rfl rfl rfl rfl (by decide) (by decide) (by decide)).1 rfl).2.2.1 (by decide),
   ((claim_C3 (mkTxn "abc" "e" false false 0)
      false false "q" "m" "" (fun n => if n = 0 then ⟨500, ⟨none⟩⟩ else ⟨502, ⟨none⟩⟩) 0
      rfl rfl rfl rfl (by decide) (by decide) (by decide)).2).2.2.2.2 (by decide)⟩

/-- C9: `#mergeArrays` accumulates the deduplicated union — membership in
the merge is membership in either input, the result has no duplicates —
and reconciling the two successive responses with keys
["abc","def"] and ["abc","def","ghi","jkl"] through
`#syncResponseExtensions` leaves the handle's key set exactly
["abc","def","ghi","jkl"]. -/
theorem claim_C9 :
    (∀ (a b : List String) (x : String), x ∈ mergeArrays a b ↔ (x ∈ a ∨ x ∈ b))
    ∧ (∀ (a b : List String), (mergeArrays a b).Nodup)
    ∧ (syncResponseExtensions
        (syncResponseExtensions (mkTxn "abc" "https://example.com" false false 20)
          ⟨9, "hash", some ["abc", "def"], some ["abc", "def"]⟩).1
        ⟨9, "hash", some ["abc", "def", "ghi", "jkl"], some ["abc", "def", "ghi", "jkl"]⟩).1.keys
      = ["abc", "def", "ghi", "jkl"] :=
  ⟨mem_mergeArrays, nodup_mergeArrays, by decide⟩

/-- C4: on an Active handle, `commit()` with `didMutate = false`
transitions to Committed, performs zero network calls and returns
nothing; with `didMutate = true` it transitions to Committed and issues
exactly one request to `commit?startTs=<startTs>&hash=<hash>` (both
parameters always present, in that order) with the JSON content type and
the JSON body `{keys: modifiedKeys, preds: modifiedPredicates}`. -/
theorem claim_C4 (t : Txn) (net : Nat → FetchResult) (i : Nat)
    (hA : t.isAborted = false) (hC : t.isCommited = false) (hX : t.isClosed = false) :
    (t.didMutations = false →
      commitRun t net i =
        { txn := { t with isCommited := true }, result := .ok none, requests := [], next := i })
    ∧ (t.didMutations = true → (net i).status < 300 →
      commitRun t net i =
        { txn := { t with isCommited := true },
          result := .ok (some (net i).body),
          requests := [⟨"commit?startTs=" ++ toString t.startTs ++ "&hash=" ++ t.hash,
            some (stringifyKeysPreds t.keys t.preds), some "application/json"⟩],
          next := i + 1 }) := by
  constructor
  · intro hd
    unfold commitRun
    rw [if_neg (by simp [hA]), if_neg (by simp [hC]), if_neg (by simp [hX]),
      if_neg (by simp [hd])]
  · intro hd hs
    unfold commitRun
    rw [if_neg (by simp [hA]), if_neg (by simp [hC]), if_neg (by simp [hX]),
      if_pos (by simp [hd]), apiCall_success _ _ _ _ hs, commitRequest_eq]

/-- Witness for claim_C4 at a mutated handle and a 200 oracle. -/
theorem claim_C4_witness :
    commitRun ⟨["k1"], ["p1"], "hash", "abc", "e", 9, 600, false, false, false, false, false, true⟩
        (fun _ => ⟨200, ⟨none⟩⟩) 0 =
      { txn := ⟨["k1"], ["p1"], "hash", "abc", "e", 9, 600, false, false, false, true, false, true⟩,
        result := .ok (some ⟨none⟩),
        requests := [⟨"commit?startTs=9&hash=hash",
          some (stringifyKeysPreds ["k1"] ["p1"]), some "application/json"⟩],
        next := 1 } := by
  have h := (claim_C4
    ⟨["k1"], ["p1"], "hash", "abc", "e", 9, 600, false, false, false, false, false, true⟩
    (fun _ => ⟨200, ⟨none⟩⟩) 0 rfl rfl rfl).2 rfl (by decide)
  rw [h]
  rfl

/-- C7: `abort()` has no precondition failure and is idempotent — on a
not-yet-aborted handle it always sets `isAborted`; it performs no network
call and returns nothing when `didMutate` is false, and issues exactly
the one request `commit?startTs=<startTs>&hash=<hash>&abort=true`
(parameters in that order, no body, no Content-Type header) when
`didMutate` is true; at most one network call is ever made, and a second
`abort()` is a no-op returning nothing with no network call. -/
theorem claim_C7 (t : Txn) (net net2 : Nat → FetchResult) (i j : Nat)
    (h : t.isAborted = false) :
    (abortRun t net i).txn = { t with isAborted := true }
    ∧ (t.didMutations = false →
        abortRun t net i =
          { txn := { t with isAborted := true }, result := .ok none, requests := [], next := i })
    ∧ (t.didMutations = true →
        (abortRun t net i).requests =
          [⟨"commit?startTs=" ++ toString t.startTs ++ "&hash=" ++ t.hash ++ "&abort=true",
            none, none⟩])
    ∧ (abortRun t net i).requests.length ≤ 1
    ∧ abortRun (abortRun t net i).txn net2 j =
        { txn := (abortRun t net i).txn, result := .ok none, requests := [], next := j } := by
  refine ⟨abortRun_txn t net i, fun hd => abortRun_not_aborted_nomut t net i h hd, ?_,
    abortRun_requests_length t net i, ?_⟩
  · intro hd
    rw [abortRun_not_aborted_mut t net i h hd]
    unfold apiFromAbort
    split_ifs <;> simp [abortRequest_eq]
  · refine abortRun_of_isAborted _ net2 j ?_
    rw [abortRun_txn t net i]

/-- Witness for claim_C7 at a mutated handle and a 200 oracle. -/
theorem claim_C7_witness :
    (abortRun ⟨["k1"], ["p1"], "hash", "abc", "e", 9, 600, false, false, false, false, false, true⟩
        (fun _ => ⟨200, ⟨none⟩⟩) 0).requests =
      [⟨"commit?startTs=9&hash=hash&abort=true", none, none⟩] := by
  have h := (claim_C7
    ⟨["k1"], ["p1"], "hash", "abc", "e", 9, 600, false, false, false, false, false, true⟩
    (fun _ => ⟨200, ⟨none⟩⟩) (fun _ => ⟨200, ⟨none⟩⟩) 0 0 rfl).2.2.1 rfl
  rw [h]
  rfl

/-- C5: on an Active handle, `query` builds its query string with the
parameters in the order startTs, hash, timeout, ro, be, including
startTs only if nonzero, hash only if nonempty, `timeout=<n>s` only if
the timeout is positive, `ro=true` only if readOnly and `be=true` only
if bestEffort; in particular a fresh handle with readOnly, bestEffort
and timeout 20 builds `query?timeout=20s&ro=true&be=true`, and after a
response sets startTs 9 and hash "hash" a second query builds
`query?startTs=9&hash=hash&timeout=20s&ro=true&be=true`. -/
theorem claim_C5 (t : Txn) (c : Bool) (q : String) (net : Nat → FetchResult) (i : Nat)
    (hA : t.isAborted = false) (hC : t.isCommited = false) (hX : t.isClosed = false) :
    ((queryRun t c q net i).requests.head? =
      some (mkRequest ("query?" ++ String.intercalate "&" (List.filterMap id
        [if t.startTs ≠ 0 then some ("startTs=" ++ toString t.startTs) else none,
         if t.hash ≠ "" then some ("hash=" ++ t.hash) else none,
         if t.timeout > 0 then some ("timeout=" ++ toString t.timeout ++ "s") else none,
         if t.readOnly = true then some "ro=true" else none,
         if t.bestEffort = true then some "be=true" else none]))
        (some q) (some "application/dql")))
    ∧ (queryRun (mkTxn "abc" "https://example.com" true true 20) false "q"
        (fun _ => ⟨200, ⟨some ⟨9, "hash", none, none⟩⟩⟩) 0).requests =
      [⟨"query?timeout=20s&ro=true&be=true", some "q", some "application/dql"⟩]
    ∧ (queryRun (queryRun (mkTxn "abc" "https://example.com" true true 20) false "q"
          (fun _ => ⟨200, ⟨some ⟨9, "hash", none, none⟩⟩⟩) 0).txn true "q"
        (fun _ => ⟨200, ⟨none⟩⟩) 1).requests =
      [⟨"query?startTs=9&hash=hash&timeout=20s&ro=true&be=true", some "q", some "application/dql"⟩] := by
  refine ⟨?_, rfl, rfl⟩
  have hp : paramsToString (queryParams t) = String.intercalate "&" (List.filterMap id
      [if t.startTs ≠ 0 then some ("startTs=" ++ toString t.startTs) else none,
       if t.hash ≠ "" then some ("hash=" ++ t.hash) else none,
       if t.timeout > 0 then some ("timeout=" ++ toString t.timeout ++ "s") else none,
       if t.readOnly = true then some "ro=true" else none,
       if t.bestEffort = true then some "be=true" else none]) := by
    unfold queryParams paramsToString
    split_ifs <;> rfl
  rw [queryRun_active t c q net i hA hC hX, postQuery_requests, apiCall_requests_head, hp]
  rfl

/-- Witness for claim_C5 at a fresh readOnly/bestEffort handle. -/
theorem claim_C5_witness :
    (queryRun (mkTxn "abc" "e" true true 20) false "q" (fun _ => ⟨200, ⟨none⟩⟩) 0).requests.head? =
      some (mkRequest ("query?" ++ String.intercalate "&" (List.filterMap id
        [if (mkTxn "abc" "e" true true 20).startTs ≠ 0 then
          some ("startTs=" ++ toString (mkTxn "abc" "e" true true 20).startTs) else none,
         if (mkTxn "abc" "e" true true 20).hash ≠ "" then
          some ("hash=" ++ (mkTxn "abc" "e" true true 20).hash) else none,
         if (mkTxn "abc" "e" true true 20).timeout > 0 then
          some ("timeout=" ++ toString (mkTxn "abc" "e" true true 20).timeout ++ "s") else none,
         if (mkTxn "abc" "e" true true 20).readOnly = true then some "ro=true" else none,
         if (mkTxn "abc" "e" true true 20).bestEffort = true then some "be=true" else none]))
        (some "q") (some "application/dql")) :=
  (claim_C5 (mkTxn "abc" "e" true true 20) false "q" (fun _ => ⟨200, ⟨none⟩⟩) 0 rfl rfl rfl).1

theorem syncResponseExtensions_adopt (t : Txn) (ext : ExtensionsTxn) (h0 : t.startTs = 0) :
    (syncResponseExtensions t ext).1.startTs = ext.start_ts ∧
      (syncResponseExtensions t ext).2 = none := by
  unfold syncResponseExtensions syncStartTs
  split_ifs <;> simp_all

theorem syncResponseExtensions_mismatch_eq (t : Txn) (ext : ExtensionsTxn)
    (h0 : t.startTs ≠ 0) (hne : ext.start_ts ≠ t.startTs) :
    syncResponseExtensions t ext =
      ((if ext.hash ≠ "" then { t with hash := ext.hash } else t),
        some (.startTsMismatch t.startTs ext.start_ts)) := by
  unfold syncResponseExtensions syncStartTs
  split_ifs <;> simp_all

theorem foldSync_startTs (exts : List ExtensionsTxn) (t : Txn) (h : t.startTs ≠ 0) :
    (exts.foldl (fun s e => (syncResponseExtensions s e).1) t).startTs = t.startTs := by
  induction exts generalizing t with
  | nil => rfl
  | cons e rest ih =>
    simp only [List.foldl_cons]
    rw [ih _ (by rw [syncResponseExtensions_startTs_of_ne _ _ h]; exact h),
      syncResponseExtensions_startTs_of_ne _ _ h]

/-- C6: `startTs` is set at most once, from 0 to the (nonzero) start_ts
of the first reconciled response, and that adoption succeeds with no
error; any number of later reconciliations leave the adopted value
unchanged; a reconciled response whose start_ts differs from the adopted
value fails with the start-timestamp-mismatch error carrying both the
handle's and the response's values, and leaves the stored `startTs`
unchanged. -/
theorem claim_C6 (t u : Txn) (ext uext : ExtensionsTxn) (exts : List ExtensionsTxn)
    (h0 : t.startTs = 0) (hs : ext.start_ts ≠ 0)
    (hu : u.startTs ≠ 0) (hne : uext.start_ts ≠ u.startTs) :
    ((syncResponseExtensions t ext).1.startTs = ext.start_ts ∧
      (syncResponseExtensions t ext).2 = none)
    ∧ (exts.foldl (fun s e => (syncResponseExtensions s e).1)
        (syncResponseExtensions t ext).1).startTs = ext.start_ts
    ∧ (syncResponseExtensions u uext).2 = some (.startTsMismatch u.startTs uext.start_ts)
    ∧ (syncResponseExtensions u uext).1.startTs = u.startTs := by
  have had := syncResponseExtensions_adopt t ext h0
  have hmm := syncResponseExtensions_mismatch_eq u uext hu hne
  refine ⟨had, ?_, ?_, ?_⟩
  · rw [foldSync_startTs _ _ (by rw [had.1]; exact hs), had.1]
  · rw [hmm]
  · rw [hmm]
    split_ifs <;> rfl

/-- Witness for claim_C6 at concrete fresh and adopted handles. -/
theorem claim_C6_witness :
    (syncResponseExtensions (mkTxn "abc" "e" false false 0) ⟨9, "hash", none, none⟩).1.startTs = 9 ∧
    (syncResponseExtensions ⟨[], [], "", "abc", "e", 9, 600, false, false, false, false, false, false⟩
        ⟨18, "", none, none⟩).2 = some (.startTsMismatch 9 18) :=
  ⟨(claim_C6 (mkTxn "abc" "e" false false 0)
      ⟨[], [], "", "abc", "e", 9, 600, false, false, false, false, false, false⟩
      ⟨9, "hash", none, none⟩ ⟨18, "", none, none⟩ [] rfl (by decide) (by decide) (by decide)).1.1,
    (claim_C6 (mkTxn "abc" "e" false false 0)
      ⟨[], [], "", "abc", "e", 9, 600, false, false, false, false, false, false⟩
      ⟨9, "hash", none, none⟩ ⟨18, "", none, none⟩ [] rfl (by decide) (by decide) (by decide)).2.2.1⟩

theorem queryRun_requests_ne (t : Txn) (c : Bool) (q : String) (net : Nat → FetchResult)
    (i : Nat) (hA : t.isAborted = false) (hC : t.isCommited = false) (hX : t.isClosed = false) :
    (queryRun t c q net i).requests ≠ [] := by
  rw [queryRun_active t c q net i hA hC hX, postQuery_requests]
  exact apiCall_requests_ne _ _ _ _

theorem postMutate_ok_true (a : StepResult) (rb : Option RespBody) (h : a.result = .ok rb) :
    postMutate true a = { a with txn := { a.txn with isCommited := true } } := by
  unfold postMutate
  rw [h]
  rfl

theorem postQuery_ok_false (a : StepResult) (rb : Option RespBody) (h : a.result = .ok rb) :
    postQuery false a = syncAfter a rb := by
  unfold postQuery
  rw [h]
  rfl

/-- C8: `mutate` with `commitNow = true` on a fresh Active non-readOnly
handle builds the request target `mutate?commitNow=true` (commitNow
first; startTs and hash omitted because zero/empty), transitions the
handle to Committed without reconciling any response metadata, and a
following `commit()` fails with the already-committed error. -/
theorem claim_C8 (ak ep : String) (be : Bool) (tm : Int) (m : String)
    (net net2 : Nat → FetchResult) (i j : Nat)
    (hm : m ≠ "") (hs : (net i).status < 300) :
    (mutateRun (mkTxn ak ep false be tm) m "" true net i).requests =
      [⟨"mutate?commitNow=true", some (mutateBody m ""), some "application/rdf"⟩]
    ∧ (mutateRun (mkTxn ak ep false be tm) m "" true net i).txn =
      { mkTxn ak ep false be tm with didMutations := true, isCommited := true }
    ∧ commitRun (mutateRun (mkTxn ak ep false be tm) m "" true net i).txn net2 j =
      { txn := (mutateRun (mkTxn ak ep false be tm) m "" true net i).txn,
        result := .error .alreadyCommited, requests := [], next := j } := by
  have hact := mutateRun_active (mkTxn ak ep false be tm) m "" true net i rfl rfl rfl rfl
    (by simp [hm]) (by simp)
  have hreq : mkRequest (mutatePath { mkTxn ak ep false be tm with didMutations := true } true)
      (some (mutateBody m "")) (some enumContentType.rdf) =
      ⟨"mutate?commitNow=true", some (mutateBody m ""), some "application/rdf"⟩ := by
    unfold mkRequest
    dsimp only
    rw [if_pos (mutateBody_ne m "")]
    rfl
  rw [hact, hreq, apiCall_success _ _ _ _ hs, postMutate_ok_true _ _ rfl]
  exact ⟨rfl, rfl, commitRun_of_commited _ net2 j rfl rfl⟩

/-- Witness for claim_C8 at concrete inputs, with a response that does
carry extensions (which are ignored because commitNow was set). -/
theorem claim_C8_witness :
    (mutateRun (mkTxn "abc" "e" false false 0) "m" "" true
        (fun _ => ⟨200, ⟨some ⟨9, "hash", some ["k"], none⟩⟩⟩) 0).txn =
      { mkTxn "abc" "e" false false 0 with didMutations := true, isCommited := true } :=
  (claim_C8 "abc" "e" false 0 "m" (fun _ => ⟨200, ⟨some ⟨9, "hash", some ["k"], none⟩⟩⟩)
    (fun _ => ⟨200, ⟨none⟩⟩) 0 0 (by decide) (by decide)).2.1

/-- C10: when reconciliation fails with the start-timestamp-mismatch
error, the call returns that error but the handle stays Active — the
resulting state is exactly the input state with only `hash` overwritten
by the response's non-empty hash (terminal flags, startTs, keys, preds
and didMutations all unchanged, no abort triggered since the error is
raised outside `#api`'s try/catch) — and a subsequent query passes the
state precondition checks and issues a request. -/
theorem claim_C10 (t : Txn) (q : String) (net : Nat → FetchResult) (i : Nat) (ext : ExtensionsTxn)
    (hA : t.isAborted = false) (hC : t.isCommited = false) (hX : t.isClosed = false)
    (hs : (net i).status < 300) (hb : (net i).body.txn = some ext)
    (hh : ext.hash ≠ "") (h0 : t.startTs ≠ 0) (hne : ext.start_ts ≠ t.startTs) :
    (queryRun t false q net i).result = .error (.startTsMismatch t.startTs ext.start_ts)
    ∧ (queryRun t false q net i).txn = { t with hash := ext.hash }
    ∧ (∀ (c2 : Bool) (q2 : String) (net2 : Nat → FetchResult) (j : Nat),
        (queryRun (queryRun t false q net i).txn c2 q2 net2 j).requests ≠ []) := by
  have hsync := syncResponseExtensions_mismatch_eq t ext h0 hne
  rw [if_pos hh] at hsync
  rw [queryRun_active t false q net i hA hC hX, apiCall_success _ _ _ _ hs,
    postQuery_ok_false _ _ rfl]
  unfold syncAfter
  dsimp only
  rw [hb]
  dsimp only
  rw [hsync]
  refine ⟨rfl, rfl, ?_⟩
  intro c2 q2 net2 j
  dsimp only
  exact queryRun_requests_ne _ c2 q2 net2 j hA hC hX

/-- Witness for claim_C10 at a concrete adopted handle and a mismatching
response. -/
theorem claim_C10_witness :
    (queryRun ⟨["k"], ["p"], "h0", "abc", "e", 9, 600, false, false, false, false, false, true⟩
        false "q" (fun _ => ⟨200, ⟨some ⟨18, "h1", none, none⟩⟩⟩) 0).result =
      .error (.startTsMismatch 9 18) :=
  (claim_C10 ⟨["k"], ["p"], "h0", "abc", "e", 9, 600, false, false, false, false, false, true⟩
    "q" (fun _ => ⟨200, ⟨some ⟨18, "h1", none, none⟩⟩⟩) 0 ⟨18, "h1", none, none⟩
    rfl rfl rfl (by decide) rfl (by decide) (by decide) (by decide)).1

end Dgraph
